import Mathlib

/-!
Shallow embedding of `src/scripts/ghidra_decompile.py` (NeoGhidra's headless
Ghidra script).  The script queries a pre-analyzed program through Ghidra's
engine API and serializes one JSON report between fixed marker lines; it also
offers two mutation operations (symbol rename, data-type assignment).

The engine (program model, symbol table, listing, decompiler, address factory,
type parser) is an external collaborator: it is modelled here as explicit data
carried by a `Program` structure, with addresses as `Nat`, fallible engine
calls as `Except String` / fault fields, and Jython exceptions as the
`Except String` monad.  Each Lean definition mirrors one Python function of the
script line by line; mutation operations additionally return the resulting
engine state and counters of the engine calls they issued, so that frame
conditions ("the parser was not invoked", "createData was not called") are
observable facts about the definition.
-/

namespace NeoGhidra

/-- An instruction object as served by `Listing.getInstructionAt`:
its address, decoded byte length (`getLength`), mnemonic string, default
operand representation, and raw bytes.  Raw bytes are `Int` because Jython
iterates a Java `byte[]` as signed values in `[-128, 127]`; the script
defensively masks with `& 0xff`. -/
structure Instruction where
  address : Nat
  length : Nat
  mnemonic : String
  operands : String
  bytes : List Int
deriving Repr, DecidableEq

/-- A data item as served by `Listing.getDataAt` (only its presence and type
name matter to the script). -/
structure DataItem where
  typeName : String
deriving Repr, DecidableEq

/-- A parsed data type as returned by the engine's type parser. -/
structure DataType where
  name : String
deriving Repr, DecidableEq

/-- The engine's listing: instruction lookup, end-of-line comment lookup and
data lookup, each keyed by address.  `getComment(CodeUnit.EOL_COMMENT, a)`
returns `null` when absent, modelled by `Option`. -/
structure Listing where
  instructionAt : Nat → Option Instruction
  eolCommentAt : Nat → Option String
  dataAt : Nat → Option DataItem

/-- A symbol object of the engine's symbol table.  `source` is the rendered
provenance tag (`str(symbol.getSource())`); `isExternal` and `isDynamic` are
the engine flags consulted by `Symbol.isExternal()` and by
`SymbolTable.getAllSymbols(includeDynamicSymbols)`. -/
structure Symbol where
  name : String
  address : Nat
  symbolType : String
  source : String
  isExternal : Bool
  isDynamic : Bool
deriving Repr, DecidableEq

/-- A function object of the engine's function manager.  `body` is the
rendered address-set string `str(func.getBody())`. -/
structure FunctionObj where
  name : String
  entryPoint : Nat
  signature : String
  body : String
deriving Repr, DecidableEq

/-- The value object returned by `DecompileResults.getDecompiledFunction`;
`c` is its `getC()` text. -/
structure DecompiledFunctionObj where
  c : String
deriving Repr, DecidableEq

/-- The result object of `DecompInterface.decompileFunction`. -/
structure DecompileResults where
  decompileCompleted : Bool
  decompiledFunction : Option DecompiledFunctionObj
deriving Repr, DecidableEq

/-- The decompiler service (`DecompInterface`).  `openFault` is the fault, if
any, raised by `openProgram`; `decompileFunction f t` models
`decompileFunction(f, t, monitor)`, which may return `null` (`none`). -/
structure Decompiler where
  openFault : Option String
  decompileFunction : FunctionObj → Nat → Option DecompileResults

/-- The ambient `currentProgram` handle together with the engine services the
script reaches through it.

* `getName` is fallible (`Except`): an engine-access fault while reading the
  program name is one of the unexpected faults §7 of the spec calls
  "fatal-to-the-report".
* `externalEntryPoints` models `getSymbolTable().getExternalEntryPointIterator()`
  as the list of entry-point addresses in iterator order (`next().getAddress()`
  extracts the address of the iterator element).
* `allSymbols` is the symbol table in engine iteration order.
* `functions` models `getFunctionManager().getFunctions(True)` in iteration
  order; `getFunctionContaining` is the engine's body-range lookup.
* `getAddress` models `getAddressFactory().getAddress(text)`, faulting on
  malformed input; `parseDataType` models constructing a `DataTypeParser` and
  calling `parse(text)`, faulting on unknown or malformed type syntax.
* `setNameFault s n` is the fault, if any, raised by `s.setName(n, ...)`;
  `createDataFault a` is the fault, if any, raised by
  `listing.createData(a, dt)` (raised before any listing change). -/
structure Program where
  getName : Except String String
  minAddress : Nat
  imageBase : Nat
  languageID : String
  externalEntryPoints : List Nat
  allSymbols : List Symbol
  functions : List FunctionObj
  getFunctionContaining : Nat → Option FunctionObj
  listing : Listing
  getAddress : String → Except String Nat
  parseDataType : String → Except String DataType
  setNameFault : Symbol → String → Option String
  createDataFault : Nat → Option String

/-! ## Engine-side operations (Ghidra API semantics) -/

/-- Ghidra `SymbolTable.getAllSymbols(includeDynamicSymbols)`: iterates the
symbol table; when the flag is `false`, dynamically generated symbols are
omitted from the iteration (Ghidra API semantics of the boolean parameter). -/
def getAllSymbols (tab : List Symbol) (includeDynamicSymbols : Bool) : List Symbol :=
  if includeDynamicSymbols then tab else tab.filter (fun s => !s.isDynamic)

/-- Ghidra `SymbolTable.getSymbols(address)`: the symbols bound at `address`,
in table order. -/
def getSymbolsAt (tab : List Symbol) (address : Nat) : List Symbol :=
  tab.filter (fun s => s.address == address)

/-- Engine model of `Symbol.setName(newName, SourceType.USER_DEFINED)` applied
to the first symbol bound at `address`: that stored symbol's name and
provenance are updated in place, every other table entry is untouched. -/
def applyRename : List Symbol → Nat → String → List Symbol
  | [], _, _ => []
  | s :: rest, address, newName =>
    if s.address = address then
      { s with name := newName, source := "USER_DEFINED" } :: rest
    else
      s :: applyRename rest address newName

/-- Engine model of `Listing.createData(address, dataType)` on the success
path: the listing now serves a data item of that type at `address`. -/
def Listing.createData (l : Listing) (address : Nat) (dt : DataType) : Listing :=
  { l with dataAt := fun a => if a = address then some ⟨dt.name⟩ else l.dataAt a }

/-! ## `get_entry_point` (lines 18-23) -/

/-- Python `get_entry_point()`: if the external entry-point iterator has a next
element, return its address; otherwise return `currentProgram.getMinAddress()`.
`head?` models the `hasNext()`/`next()` pair on the iterator. -/
def get_entry_point (prog : Program) : Nat :=
  let entry_points := prog.externalEntryPoints
  match entry_points.head? with
  | some a => a
  | none => prog.minAddress

/-! ## Byte rendering (line 59) -/

/-- One lowercase hexadecimal digit (the `%x` conversion's digit alphabet). -/
def hexDigit (n : Nat) : Char :=
  if n < 10 then Char.ofNat (48 + n) else Char.ofNat (87 + n)

/-- Numeric value of a lowercase hexadecimal digit (decoding helper used only
in statements about the rendering). -/
def hexVal (c : Char) : Nat :=
  if c.toNat ≥ 97 then c.toNat - 87 else c.toNat - 48

/-- Model of `'%02x' % (b & 0xff)`: the byte is masked to 8 bits (Python `& 0xff` on an
`int` is `b mod 256`, always in `[0, 255]`; Lean's `Int` `%` is Euclidean and
agrees) and printed as exactly two lowercase hex digits. -/
def byteHex (b : Int) : String :=
  let v : Nat := (b % 256).toNat
  ⟨[hexDigit (v / 16), hexDigit (v % 16)]⟩

/-- The lowercase hexadecimal digit alphabet. -/
def hexLowerChars : List Char := "0123456789abcdef".data

/-- Model of `' '.join(...)` over the rendered bytes. -/
def renderBytes (bs : List Int) : String :=
  String.intercalate " " (bs.map byteHex)

/-! ## `get_disassembly` (lines 44-65) -/

/-- One emitted instruction record (the dict appended at lines 55-61).
`address` holds the numeric address whose string rendering the script prints;
`comment` is the end-of-line comment with `or ''` turning absence into the
empty string. -/
structure InstructionRecord where
  address : Nat
  mnemonic : String
  operands : String
  bytes : String
  comment : String
deriving Repr, DecidableEq

/-- The record built for one decoded instruction at cursor `current_addr`. -/
def mkInstructionRecord (listing : Listing) (instr : Instruction)
    (current_addr : Nat) : InstructionRecord :=
  { address := instr.address
    mnemonic := instr.mnemonic
    operands := instr.operands
    bytes := renderBytes instr.bytes
    comment := (listing.eolCommentAt current_addr).getD "" }

/-- The `for _ in range(num_instructions)` loop of `get_disassembly`: decode at
the cursor, stop on `None`, append the record, advance the cursor to
`instr.getAddress().add(instr.getLength())`. -/
def get_disassembly_loop (listing : Listing) : Nat → Nat → List InstructionRecord
  | _, 0 => []
  | current_addr, n + 1 =>
    match listing.instructionAt current_addr with
    | none => []
    | some instr =>
      mkInstructionRecord listing instr current_addr ::
        get_disassembly_loop listing (instr.address + instr.length) n

/-- Python `get_disassembly(address, num_instructions)` (the script always
calls it with the default bound 100). -/
def get_disassembly (prog : Program) (address : Nat) (num_instructions : Nat) :
    List InstructionRecord :=
  get_disassembly_loop prog.listing address num_instructions

/-! ## `get_symbols` (lines 67-81) and `get_functions` (lines 83-96) -/

/-- One emitted symbol record (the dict appended at lines 74-79). -/
structure SymbolRecord where
  name : String
  address : Nat
  type : String
  source : String
deriving Repr, DecidableEq

/-- The record built for one symbol. -/
def mkSymbolRecord (s : Symbol) : SymbolRecord :=
  { name := s.name, address := s.address, type := s.symbolType, source := s.source }

/-- Python `get_symbols()`: iterate `getAllSymbols(False)` and keep the records
of the symbols with `not symbol.isExternal()`. -/
def get_symbols (prog : Program) : List SymbolRecord :=
  ((getAllSymbols prog.allSymbols false).filter (fun s => !s.isExternal)).map
    mkSymbolRecord

/-- One emitted function record (the dict appended at lines 89-94). -/
structure FunctionRecord where
  name : String
  entry_point : Nat
  signature : String
  body_range : String
deriving Repr, DecidableEq

/-- Python `get_functions()`: one record per function served by
`getFunctions(True)`. -/
def get_functions (prog : Program) : List FunctionRecord :=
  prog.functions.map fun f =>
    { name := f.name, entry_point := f.entryPoint, signature := f.signature,
      body_range := f.body }

/-! ## `decompile_function` (lines 25-42) -/

/-- The dict returned on the success path of `decompile_function`
(lines 35-41). -/
structure DecompiledRecord where
  name : String
  entry_point : Nat
  code : String
  signature : String
  body : String
deriving Repr, DecidableEq

/-- Python `decompile_function(decompiler, function)`.  The second component counts
the `decompileFunction` calls issued to the engine (0 or 1), so that "no call
issued" is an observable fact.  Control flow mirrors the source: `None`
argument returns `None` at once; otherwise one call is issued, and a record is
returned only when the result object is truthy, `decompileCompleted()` holds,
and `getDecompiledFunction()` is truthy (a non-null Java object). -/
def decompile_function (decompiler : Decompiler) (function : Option FunctionObj) :
    Option DecompiledRecord × Nat :=
  match function with
  | none => (none, 0)
  | some f =>
    let results := decompiler.decompileFunction f 30
    let out : Option DecompiledRecord :=
      match results with
      | some r =>
        if r.decompileCompleted then
          match r.decompiledFunction with
          | some decomp_code =>
            some { name := f.name
                   entry_point := f.entryPoint
                   code := decomp_code.c
                   signature := f.signature
                   body := f.body }
          | none => none
        else none
      | none => none
    (out, 1)

/-! ## Mutation results (shared shape of lines 98-130) -/

/-- The `{'success': ..., 'message': ...}` dict both mutation operations
return. -/
structure MutationResult where
  success : Bool
  message : String
deriving Repr, DecidableEq

/-! ## `rename_symbol` (lines 98-111) -/

/-- Outcome of `rename_symbol`: the returned dict plus the symbol table the
engine holds afterwards. -/
structure RenameOutcome where
  result : MutationResult
  symbols : List Symbol
deriving Repr, DecidableEq

/-- Python `rename_symbol(address_str, new_name)`.  The `try` body is the
inner `Except` computation: resolve the address, fetch the symbols bound
there, and either rename the first one (`for symbol in symbols: ...; return`
takes the first iteration) or report `'No symbol found at address'`.  The
`except` arm turns any fault into `{'success': False, 'message': str(e)}`;
the engine's table is unchanged on every non-renaming path. -/
def rename_symbol (prog : Program) (address_str new_name : String) :
    RenameOutcome :=
  let body : Except String (MutationResult × List Symbol) :=
    match prog.getAddress address_str with
    | Except.error e => Except.error e
    | Except.ok address =>
      match getSymbolsAt prog.allSymbols address with
      | symbol :: _ =>
        match prog.setNameFault symbol new_name with
        | some e => Except.error e
        | none =>
          Except.ok ({ success := true, message := "Renamed to " ++ new_name },
                     applyRename prog.allSymbols address new_name)
      | [] =>
        Except.ok ({ success := false, message := "No symbol found at address" },
                   prog.allSymbols)
  match body with
  | Except.ok (r, tab) => { result := r, symbols := tab }
  | Except.error e =>
    { result := { success := false, message := e }, symbols := prog.allSymbols }

/-! ## `set_data_type` (lines 113-130) -/

/-- Outcome of `set_data_type`: the returned dict, the listing the engine holds
afterwards, and counters of the engine calls issued (`parser.parse` and
`listing.createData`), so that "the parse was attempted" and "the creation call
was issued" are observable facts. -/
structure SetDataOutcome where
  result : MutationResult
  listing : Listing
  typeParseCalls : Nat
  createDataCalls : Nat

/-- `set_data_type(address_str, type_str)`.  The source resolves the address,
then unconditionally parses `type_str` (line 120), and only then checks
`listing.getDataAt(address)` (lines 123-124); `createData` runs only when data
is present.  The `except` arm turns any fault — address parse, type parse, or
`createData` itself — into `{'success': False, 'message': str(e)}` with the
listing unchanged. -/
def set_data_type (prog : Program) (address_str type_str : String) :
    SetDataOutcome :=
  match prog.getAddress address_str with
  | Except.error e =>
    { result := { success := false, message := e }, listing := prog.listing,
      typeParseCalls := 0, createDataCalls := 0 }
  | Except.ok address =>
    match prog.parseDataType type_str with
    | Except.error e =>
      { result := { success := false, message := e }, listing := prog.listing,
        typeParseCalls := 1, createDataCalls := 0 }
    | Except.ok data_type =>
      let listing := prog.listing
      match listing.dataAt address with
      | some _ =>
        match prog.createDataFault address with
        | some e =>
          { result := { success := false, message := e },
            listing := prog.listing, typeParseCalls := 1, createDataCalls := 1 }
        | none =>
          { result := { success := true, message := "Set type to " ++ type_str },
            listing := listing.createData address data_type,
            typeParseCalls := 1, createDataCalls := 1 }
      | none =>
        { result := { success := false, message := "No data at address" },
          listing := prog.listing, typeParseCalls := 1, createDataCalls := 0 }

/-! ## `analyze_program` (lines 132-181) and the `__main__` block (184-195) -/

/-- The success dict of `analyze_program` (lines 161-170). -/
structure AnalysisReport where
  program_name : String
  entry_point : Nat
  entry_function : Option DecompiledRecord
  functions : List FunctionRecord
  symbols : List SymbolRecord
  disassembly : List InstructionRecord
  image_base : Nat
  language : String
deriving Repr, DecidableEq

/-- The error dict of `analyze_program` (lines 176-181). -/
structure ErrorReport where
  error : Bool
  message : String
  traceback : String
  program_name : String
deriving Repr, DecidableEq

/-- The two mutually exclusive top-level shapes the script can emit. -/
inductive Report
  | analysis : AnalysisReport → Report
  | err : ErrorReport → Report
deriving Repr, DecidableEq

/-- Model of `traceback.format_exc()`: the diagnostic trace text for the
exception whose message is `msg` (its exact engine-side text is opaque; what
matters is that it is derived from the active exception). -/
def format_exc (msg : String) : String :=
  "Traceback (most recent call last):\n" ++ msg

/-- The fault raised by touching `currentProgram` when the ambient handle is
unavailable (`None`). -/
def noProgramFault : String := "NoneType object has no attribute"

/-- Python `analyze_program()`.  The `try` body runs the fixed step sequence
(open decompiler, resolve entry, find containing function, decompile it,
enumerate functions, enumerate symbols, disassemble, read metadata) and builds
the success dict; the fallible engine touches are the `currentProgram` access
itself, `decompiler.openProgram`, and `currentProgram.getName()`.  The
`except Exception` arm builds the error dict, whose `program_name` is
`currentProgram.getName() if currentProgram else 'unknown'` — note that this
second `getName()` call can itself fault, in which case the exception escapes
`analyze_program` (the outer `Except.error`). -/
def analyze_program (currentProgram : Option Program) (decompiler : Decompiler) :
    Except String Report :=
  let body : Except String AnalysisReport :=
    match currentProgram with
    | none => Except.error noProgramFault
    | some prog =>
      match decompiler.openFault with
      | some e => Except.error e
      | none =>
        let entry_addr := get_entry_point prog
        let entry_function := prog.getFunctionContaining entry_addr
        let entry_decompiled : Option DecompiledRecord :=
          match entry_function with
          | some _ => (decompile_function decompiler entry_function).1
          | none => none
        let functions := get_functions prog
        let symbols := get_symbols prog
        let disassembly := get_disassembly prog entry_addr 100
        match prog.getName with
        | Except.error e => Except.error e
        | Except.ok program_name =>
          Except.ok { program_name := program_name
                      entry_point := entry_addr
                      entry_function := entry_decompiled
                      functions := functions
                      symbols := symbols
                      disassembly := disassembly
                      image_base := prog.imageBase
                      language := prog.languageID }
  match body with
  | Except.ok r => Except.ok (Report.analysis r)
  | Except.error e =>
    let name : Except String String :=
      match currentProgram with
      | some p => p.getName
      | none => Except.ok "unknown"
    match name with
    | Except.ok nm =>
      Except.ok (Report.err
        { error := true, message := e, traceback := format_exc e,
          program_name := nm })
    | Except.error e2 => Except.error e2

/-- The fixed start marker line printed before the JSON document. -/
def startMarker : String := "__NEOGHIDRA_JSON_START__"

/-- The fixed end marker line printed after the JSON document. -/
def endMarker : String := "__NEOGHIDRA_JSON_END__"

/-- A total serializer standing in for `json.dumps(result, indent=2)`:
every value in either dict shape is a string, number, boolean, `null`, list or
nested dict of those, so serialization is total on the `Report` type. -/
def json_dumps (r : Report) : String :=
  match r with
  | Report.analysis a =>
    "\x7b \"program_name\": \"" ++ a.program_name ++ "\", \"entry_point\": \""
      ++ toString a.entry_point ++ "\", \"language\": \"" ++ a.language
      ++ "\" \x7d"
  | Report.err e =>
    "\x7b \"error\": " ++ (if e.error then "true" else "false")
      ++ ", \"message\": \"" ++ e.message ++ "\", \"program_name\": \""
      ++ e.program_name ++ "\" \x7d"

/-- The `__main__` block: run `analyze_program` and print the start marker, the
JSON document, and the end marker.  The returned list is the sequence of lines
written to standard output; `Except.error` is an exception reaching the
process's default handler (in which case nothing modelled here is printed,
since the faulting call precedes the first `print`). -/
def main_block (currentProgram : Option Program) (decompiler : Decompiler) :
    Except String (List String) :=
  match analyze_program currentProgram decompiler with
  | Except.error e => Except.error e
  | Except.ok result => Except.ok [startMarker, json_dumps result, endMarker]

/-! ## Concrete engine fixtures used by witnesses and counterexamples -/

/-- A two-instruction listing: `PUSH RBP` at 4096 (1 byte as decoded length 2
for the fixture) and `MOV RBP,RSP` at 4098 (length 3); nothing decodes at
4101.  One data item sits at 8192. -/
def sampleListing : Listing :=
  { instructionAt := fun a =>
      if a = 4096 then
        some { address := 4096, length := 2, mnemonic := "PUSH",
               operands := "RBP", bytes := [85, 0] }
      else if a = 4098 then
        some { address := 4098, length := 3, mnemonic := "MOV",
               operands := "RBP,RSP", bytes := [72, -119, -27] }
      else none
    eolCommentAt := fun a => if a = 4098 then some "save frame" else none
    dataAt := fun a => if a = 8192 then some { typeName := "undefined4" } else none }

/-- The entry function of the fixture program. -/
def mainFunc : FunctionObj :=
  { name := "main", entryPoint := 4096, signature := "int main(void)",
    body := "[1000, 100a]" }

/-- The primary symbol at the fixture's entry address. -/
def mainSym : Symbol :=
  { name := "main", address := 4096, symbolType := "Function",
    source := "ANALYSIS", isExternal := false, isDynamic := false }

/-- A second symbol bound at the same address as `mainSym`. -/
def dupSym : Symbol :=
  { name := "dup_main", address := 4096, symbolType := "Label",
    source := "ANALYSIS", isExternal := false, isDynamic := false }

/-- A non-external, engine-generated (dynamic) symbol. -/
def dynSymbol : Symbol :=
  { name := "LAB_1002", address := 4098, symbolType := "Label",
    source := "DEFAULT", isExternal := false, isDynamic := true }

/-- An external symbol. -/
def extSym : Symbol :=
  { name := "printf", address := 20480, symbolType := "Function",
    source := "IMPORTED", isExternal := true, isDynamic := false }

/-- A plain data symbol. -/
def dataSym : Symbol :=
  { name := "data1", address := 8192, symbolType := "Label",
    source := "USER_DEFINED", isExternal := false, isDynamic := false }

/-- A concrete, healthy program fixture. -/
def sampleProgram : Program :=
  { getName := Except.ok "sample.bin"
    minAddress := 4096
    imageBase := 4096
    languageID := "x86:LE:64:default"
    externalEntryPoints := [4096, 4100]
    allSymbols := [mainSym, dupSym, dynSymbol, extSym, dataSym]
    functions := [mainFunc]
    getFunctionContaining := fun a =>
      if 4096 ≤ a ∧ a ≤ 4106 then some mainFunc else none
    listing := sampleListing
    getAddress := fun s =>
      if s = "0x1000" then Except.ok 4096
      else if s = "0x2000" then Except.ok 8192
      else if s = "0x3000" then Except.ok 12288
      else Except.error ("Invalid address: " ++ s)
    parseDataType := fun s =>
      if s = "int" then Except.ok { name := "int" }
      else Except.error ("Unknown type: " ++ s)
    setNameFault := fun _ _ => none
    createDataFault := fun _ => none }

/-- A decompiler fixture that succeeds on the fixture's entry function. -/
def sampleDecompiler : Decompiler :=
  { openFault := none
    decompileFunction := fun f _ =>
      if f.entryPoint = 4096 then
        some { decompileCompleted := true,
               decompiledFunction := some { c := "int main(void) ..." } }
      else none }

/-- A program whose name accessor faults (engine database unusable). -/
def badNameProgram : Program :=
  { sampleProgram with getName := Except.error "program database is closed" }

/-- A decompiler whose `openProgram` call faults. -/
def faultyDecompiler : Decompiler :=
  { openFault := some "DecompInterface: open failed"
    decompileFunction := fun _ _ => none }

/-- A program fixture whose rename call faults at the engine. -/
def renameFaultProgram : Program :=
  { sampleProgram with
      setNameFault := fun _ n =>
        if n = "clash" then some "DuplicateNameException: clash" else none }

/-! ## C7 — entry-point resolution -/

/-- C7: entry-point resolution never fails and always returns an address —
with a non-empty external entry-point table it returns the address of the
first externally-exported entry point, otherwise the image's minimum
addressable address.  (`get_entry_point` is a total function of the program
model, so "never fails" is its type.) -/
theorem C7_get_entry_point_spec (prog : Program) :
    (prog.externalEntryPoints = [] → get_entry_point prog = prog.minAddress) ∧
    (∀ a rest, prog.externalEntryPoints = a :: rest →
      get_entry_point prog = a) := by
  constructor
  · intro h
    simp [get_entry_point, h]
  · intro a rest h
    simp [get_entry_point, h]

/-- Witness for C7 at the concrete fixture: its entry-point table starts with
4096, and resolution returns 4096. -/
theorem C7_witness :
    sampleProgram.externalEntryPoints = 4096 :: [4100] ∧
    get_entry_point sampleProgram = 4096 :=
  ⟨rfl, (C7_get_entry_point_spec sampleProgram).2 4096 [4100] rfl⟩

/-! ## C9 — byte rendering -/

/-- Digits below 16 render inside the lowercase hexadecimal alphabet. -/
theorem hexDigit_mem_of_lt (n : Nat) (h : n < 16) :
    hexDigit n ∈ hexLowerChars := by
  revert h
  revert n
  decide

/-- Rendering a digit below 16 and decoding it is the identity. -/
theorem hexVal_hexDigit (n : Nat) (h : n < 16) :
    hexVal (hexDigit n) = n := by
  revert h
  revert n
  decide

/-- The masked value of a byte lies in `[0, 255]`. -/
theorem maskedByte_lt (b : Int) : (b % 256).toNat < 256 := by
  have h1 : 0 ≤ b % 256 := Int.emod_nonneg b (by norm_num)
  have h2 : b % 256 < 256 := Int.emod_lt_of_pos b (by norm_num)
  omega

/-- C9: every raw byte is rendered as exactly two lowercase hexadecimal
digits; the rendered digits decode to the 8-bit-masked value, which lies in
the unsigned range `[0, 255]` for every signed input byte; and the byte
strings are joined with single spaces. -/
theorem C9_byte_rendering_spec (bs : List Int) :
    renderBytes bs = String.intercalate " " (bs.map byteHex) ∧
    ∀ b ∈ bs,
      (byteHex b).length = 2 ∧
      (∀ c ∈ (byteHex b).data, c ∈ hexLowerChars) ∧
      (b % 256).toNat < 256 ∧
      (byteHex b).data.foldl (fun acc c => 16 * acc + hexVal c) 0
        = (b % 256).toNat := by
  refine ⟨rfl, fun b _ => ?_⟩
  have hlt : (b % 256).toNat < 256 := maskedByte_lt b
  have hdiv : (b % 256).toNat / 16 < 16 := by omega
  have hmod : (b % 256).toNat % 16 < 16 := Nat.mod_lt _ (by norm_num)
  refine ⟨rfl, ?_, hlt, ?_⟩
  · intro c hc
    simp only [byteHex, List.mem_cons, List.not_mem_nil, or_false] at hc
    rcases hc with h | h
    · exact h ▸ hexDigit_mem_of_lt _ hdiv
    · exact h ▸ hexDigit_mem_of_lt _ hmod
  · show 16 * (16 * 0 + hexVal (hexDigit ((b % 256).toNat / 16)))
        + hexVal (hexDigit ((b % 256).toNat % 16)) = (b % 256).toNat
    rw [hexVal_hexDigit _ hdiv, hexVal_hexDigit _ hmod]
    omega

/-- Witness for C9 on a concrete byte list containing a negative (signed)
byte: `-1` renders as `"ff"`. -/
theorem C9_witness :
    (-1 : Int) ∈ [(72 : Int), -1] ∧
    ((byteHex (-1)).length = 2 ∧
     (∀ c ∈ (byteHex (-1)).data, c ∈ hexLowerChars) ∧
     ((-1 : Int) % 256).toNat < 256 ∧
     (byteHex (-1)).data.foldl (fun acc c => 16 * acc + hexVal c) 0
       = ((-1 : Int) % 256).toNat) :=
  ⟨by decide, (C9_byte_rendering_spec [72, -1]).2 (-1) (by decide)⟩

/-! ## C5 — symbol enumeration (corrected: dynamic symbols are excluded too) -/

/-- Counterexample to C5 as stated: `dynSymbol` is in the fixture's symbol
table and is not flagged external, yet `get_symbols` omits it — the
enumeration is invoked as `getAllSymbols(False)`, whose `False` argument
(`includeDynamicSymbols`) excludes dynamically generated symbols, so external
status is not the only exclusion criterion. -/
theorem C5_counterexample :
    dynSymbol ∈ sampleProgram.allSymbols ∧
    dynSymbol.isExternal = false ∧
    mkSymbolRecord dynSymbol ∉ get_symbols sampleProgram := by
  decide

/-- C5 (amended): symbol enumeration produces a record for exactly the symbols
that are neither flagged external nor dynamically generated — `get_symbols`
iterates `getAllSymbols(False)`, which omits dynamic symbols, and then drops
external ones; every non-external non-dynamic symbol appears. -/
theorem C5_get_symbols_spec (prog : Program) :
    get_symbols prog =
      ((prog.allSymbols.filter (fun s => !s.isDynamic)).filter
        (fun s => !s.isExternal)).map mkSymbolRecord ∧
    (∀ s ∈ prog.allSymbols, s.isExternal = false → s.isDynamic = false →
      mkSymbolRecord s ∈ get_symbols prog) ∧
    (∀ r ∈ get_symbols prog, ∃ s, s ∈ prog.allSymbols ∧ s.isExternal = false ∧
      s.isDynamic = false ∧ r = mkSymbolRecord s) := by
  have h0 : get_symbols prog =
      ((prog.allSymbols.filter (fun s => !s.isDynamic)).filter
        (fun s => !s.isExternal)).map mkSymbolRecord := by
    simp [get_symbols, getAllSymbols]
  refine ⟨h0, ?_, ?_⟩
  · intro s hs he hd
    rw [h0]
    exact List.mem_map_of_mem _
      (List.mem_filter.mpr ⟨List.mem_filter.mpr ⟨hs, by simp [hd]⟩, by simp [he]⟩)
  · intro r hr
    rw [h0] at hr
    obtain ⟨s, hsf, hrec⟩ := List.mem_map.mp hr
    obtain ⟨hsf1, he⟩ := List.mem_filter.mp hsf
    obtain ⟨hs, hd⟩ := List.mem_filter.mp hsf1
    exact ⟨s, hs, by simpa using he, by simpa using hd, hrec.symm⟩

/-- Witness for C5 at the fixture: the non-external, non-dynamic symbol
`main` appears in the enumeration. -/
theorem C5_witness :
    ({ name := "main", address := 4096, symbolType := "Function",
       source := "ANALYSIS", isExternal := false, isDynamic := false } : Symbol)
        ∈ sampleProgram.allSymbols ∧
    mkSymbolRecord
      { name := "main", address := 4096, symbolType := "Function",
        source := "ANALYSIS", isExternal := false, isDynamic := false }
        ∈ get_symbols sampleProgram :=
  ⟨by decide,
   (C5_get_symbols_spec sampleProgram).2.1 _ (by decide) rfl rfl⟩

/-! ## C8 — decompilation adapter -/

/-- C8: an absent function argument yields an absent result with no decompiler
call issued; a present function issues exactly one call, and a record is
returned precisely when the call returns a result object that completed and
carries a decompiled-function object; the record then holds the function's
name, entry address, decompiled C text, signature and body. -/
theorem C8_decompile_function_spec (decompiler : Decompiler)
    (function : Option FunctionObj) :
    (function = none → decompile_function decompiler function = (none, 0)) ∧
    (∀ f, function = some f →
      (decompile_function decompiler function).2 = 1 ∧
      ((∃ rec, (decompile_function decompiler function).1 = some rec) ↔
        (∃ r dc, decompiler.decompileFunction f 30 = some r ∧
          r.decompileCompleted = true ∧ r.decompiledFunction = some dc)) ∧
      (∀ r dc, decompiler.decompileFunction f 30 = some r →
        r.decompileCompleted = true → r.decompiledFunction = some dc →
        (decompile_function decompiler function).1 =
          some { name := f.name, entry_point := f.entryPoint, code := dc.c,
                 signature := f.signature, body := f.body })) := by
  constructor
  · intro h
    subst h
    rfl
  · intro f h
    subst h
    refine ⟨rfl, ?_, ?_⟩
    · constructor
      · intro ⟨rec, hrec⟩
        cases hr : decompiler.decompileFunction f 30 with
        | none => simp [decompile_function, hr] at hrec
        | some r =>
          cases hc : r.decompileCompleted with
          | false => simp [decompile_function, hr, hc] at hrec
          | true =>
            cases hd : r.decompiledFunction with
            | none => simp [decompile_function, hr, hc, hd] at hrec
            | some dc => exact ⟨r, dc, rfl, hc, hd⟩
      · intro ⟨r, dc, hr, hc, hd⟩
        exact ⟨{ name := f.name, entry_point := f.entryPoint, code := dc.c,
                 signature := f.signature, body := f.body },
               by simp [decompile_function, hr, hc, hd]⟩
    · intro r dc hr hc hd
      simp [decompile_function, hr, hc, hd]

/-- Witness for C8: the fixture decompiler completes on the fixture entry
function with output, and `decompile_function` returns the populated record;
the absent-argument case yields `(none, 0)`. -/
theorem C8_witness :
    (sampleDecompiler.decompileFunction mainFunc 30 =
      some ⟨true, some ⟨"int main(void) ..."⟩⟩) ∧
    decompile_function sampleDecompiler none = (none, 0) ∧
    (decompile_function sampleDecompiler (some mainFunc)).1 =
      some { name := mainFunc.name, entry_point := mainFunc.entryPoint,
             code := "int main(void) ...", signature := mainFunc.signature,
             body := mainFunc.body } :=
  ⟨rfl,
   (C8_decompile_function_spec sampleDecompiler none).1 rfl,
   ((C8_decompile_function_spec sampleDecompiler (some mainFunc)).2
       mainFunc rfl).2.2
     ⟨true, some ⟨"int main(void) ..."⟩⟩ ⟨"int main(void) ..."⟩ rfl rfl rfl⟩

/-! ## C1 — set_data_type on an address with no data (corrected: the parse
is attempted before the data check) -/

/-- Counterexample to C1 as stated: at the fixture, `"0x3000"` resolves to
address 12288, which holds no data; `set_data_type` does return
`success = false` with `'No data at address'`, but the type parser has been
invoked (`typeParseCalls = 1`, not 0) — the source parses the type text at
line 120 before checking `getDataAt` at lines 123-124. -/
theorem C1_counterexample :
    sampleProgram.getAddress "0x3000" = Except.ok 12288 ∧
    sampleProgram.listing.dataAt 12288 = none ∧
    (set_data_type sampleProgram "0x3000" "int").result =
      { success := false, message := "No data at address" } ∧
    ¬ (set_data_type sampleProgram "0x3000" "int").typeParseCalls = 0 := by
  refine ⟨rfl, rfl, rfl, by decide⟩

/-- C1 (amended): on an address that resolves and holds no data,
`set_data_type` returns `success = false` with message `'No data at address'`
after attempting the type parse exactly once (the parse precedes the data
check), issuing no data-creation call and leaving the listing unchanged; if
the type parse itself faults, the result is instead `success = false` with
the fault text. -/
theorem C1_set_data_type_no_data (prog : Program)
    (address_str type_str : String) (address : Nat)
    (ha : prog.getAddress address_str = Except.ok address)
    (hd : prog.listing.dataAt address = none) :
    (∀ dt, prog.parseDataType type_str = Except.ok dt →
      set_data_type prog address_str type_str =
        { result := { success := false, message := "No data at address" },
          listing := prog.listing, typeParseCalls := 1,
          createDataCalls := 0 }) ∧
    (∀ e, prog.parseDataType type_str = Except.error e →
      set_data_type prog address_str type_str =
        { result := { success := false, message := e },
          listing := prog.listing, typeParseCalls := 1,
          createDataCalls := 0 }) := by
  constructor
  · intro dt hp
    simp only [set_data_type, ha, hp, hd]
  · intro e hp
    simp only [set_data_type, ha, hp]

/-- Witness for C1 at the fixture: address `"0x3000"` resolves to 12288 with
no data there and `"int"` parses, and the outcome is the no-data failure with
one parse call. -/
theorem C1_witness :
    (sampleProgram.getAddress "0x3000" = Except.ok 12288 ∧
     sampleProgram.listing.dataAt 12288 = none ∧
     sampleProgram.parseDataType "int" = Except.ok { name := "int" }) ∧
    set_data_type sampleProgram "0x3000" "int" =
      { result := { success := false, message := "No data at address" },
        listing := sampleProgram.listing, typeParseCalls := 1,
        createDataCalls := 0 } :=
  ⟨⟨rfl, rfl, rfl⟩,
   (C1_set_data_type_no_data sampleProgram "0x3000" "int" 12288 rfl rfl).1
     { name := "int" } rfl⟩

/-! ## C10 — set_data_type frame condition -/

/-- C10: the data-creation call is issued only when the address resolved, the
type parsed, and data was present at the resolved address; on the failure
paths — address parse fault, type parse fault, or no data at the address —
the listing is unchanged and no creation call is issued. -/
theorem C10_set_data_type_frame (prog : Program)
    (address_str type_str : String) :
    ((set_data_type prog address_str type_str).createDataCalls ≠ 0 →
      ∃ address dt d, prog.getAddress address_str = Except.ok address ∧
        prog.parseDataType type_str = Except.ok dt ∧
        prog.listing.dataAt address = some d) ∧
    (((∃ e, prog.getAddress address_str = Except.error e) ∨
      (∃ e, prog.parseDataType type_str = Except.error e) ∨
      (∃ address dt, prog.getAddress address_str = Except.ok address ∧
        prog.parseDataType type_str = Except.ok dt ∧
        prog.listing.dataAt address = none)) →
      (set_data_type prog address_str type_str).listing = prog.listing ∧
      (set_data_type prog address_str type_str).createDataCalls = 0) := by
  constructor
  · intro hcall
    cases ha : prog.getAddress address_str with
    | error e => simp [set_data_type, ha] at hcall
    | ok address =>
      cases hp : prog.parseDataType type_str with
      | error e => simp [set_data_type, ha, hp] at hcall
      | ok dt =>
        cases hd : prog.listing.dataAt address with
        | none => simp [set_data_type, ha, hp, hd] at hcall
        | some d => exact ⟨address, dt, d, rfl, rfl, hd⟩
  · intro hfail
    rcases hfail with ⟨e, ha⟩ | ⟨e, hp⟩ | ⟨address, dt, ha, hp, hd⟩
    · simp [set_data_type, ha]
    · cases ha : prog.getAddress address_str with
      | error e2 => simp [set_data_type, ha]
      | ok address => simp [set_data_type, ha, hp]
    · simp [set_data_type, ha, hp, hd]

/-- Witness for C10 at the fixture: a malformed address text faults the
address parse, and the outcome leaves the listing unchanged with no creation
call. -/
theorem C10_witness :
    (∃ e, sampleProgram.getAddress "zzz" = Except.error e) ∧
    ((set_data_type sampleProgram "zzz" "int").listing =
        sampleProgram.listing ∧
     (set_data_type sampleProgram "zzz" "int").createDataCalls = 0) :=
  ⟨⟨"Invalid address: zzz", rfl⟩,
   (C10_set_data_type_frame sampleProgram "zzz" "int").2
     (Or.inl ⟨"Invalid address: zzz", rfl⟩)⟩

/-! ## C4 — rename_symbol -/

/-- Renaming at `address` on a table split as `l1 ++ s :: l2`, where no symbol
of `l1` is bound at `address` and `s` is, rewrites exactly the entry of `s`
(name and provenance) and leaves every other entry unchanged. -/
theorem applyRename_split (l1 l2 : List Symbol) (s : Symbol) (address : Nat)
    (new_name : String) (h1 : ∀ x ∈ l1, x.address ≠ address)
    (hs : s.address = address) :
    applyRename (l1 ++ s :: l2) address new_name =
      l1 ++ { s with name := new_name, source := "USER_DEFINED" } :: l2 := by
  induction l1 with
  | nil => simp [applyRename, hs]
  | cons a t ih =>
    have ha : a.address ≠ address := h1 a (List.mem_cons_self a t)
    simp only [List.cons_append, applyRename, if_neg ha, List.append_eq]
    rw [ih (fun x hx => h1 x (List.mem_cons_of_mem a hx))]

/-- C4: with the address resolved, `rename_symbol` on an address with zero
bound symbols returns failure with message `'No symbol found at address'` and
the symbol table unchanged; with at least one bound symbol it renames exactly
the first one — the table splits as `l1 ++ s :: l2` with no earlier symbol at
the address, and only `s`'s entry changes, to the new name with `USER_DEFINED`
provenance — and returns success; an address-parse fault or a fault from the
rename call itself is converted to a failure result carrying the fault text,
with the table unchanged, rather than raised. -/
theorem C4_rename_symbol_spec (prog : Program) (address_str new_name : String) :
    (∀ e, prog.getAddress address_str = Except.error e →
      rename_symbol prog address_str new_name =
        { result := { success := false, message := e },
          symbols := prog.allSymbols }) ∧
    (∀ address, prog.getAddress address_str = Except.ok address →
      (getSymbolsAt prog.allSymbols address = [] →
        rename_symbol prog address_str new_name =
          { result := { success := false,
                        message := "No symbol found at address" },
            symbols := prog.allSymbols }) ∧
      (∀ s rest, getSymbolsAt prog.allSymbols address = s :: rest →
        (∀ e, prog.setNameFault s new_name = some e →
          rename_symbol prog address_str new_name =
            { result := { success := false, message := e },
              symbols := prog.allSymbols }) ∧
        (prog.setNameFault s new_name = none →
          ∃ l1 l2, prog.allSymbols = l1 ++ s :: l2 ∧
            (∀ x ∈ l1, x.address ≠ address) ∧ s.address = address ∧
            rename_symbol prog address_str new_name =
              { result := { success := true,
                            message := "Renamed to " ++ new_name },
                symbols :=
                  l1 ++ { s with name := new_name,
                                 source := "USER_DEFINED" } :: l2 }))) := by
  constructor
  · intro e ha
    simp [rename_symbol, ha]
  · intro address ha
    constructor
    · intro hz
      simp [rename_symbol, ha, hz]
    · intro s rest hsr
      constructor
      · intro e hf
        simp [rename_symbol, ha, hsr, hf]
      · intro hf
        obtain ⟨l1, l2, hsplit, hl1, hpa, -⟩ :=
          List.filter_eq_cons_iff.mp hsr
        have hl1' : ∀ x ∈ l1, x.address ≠ address := by
          intro x hx
          simpa using hl1 x hx
        have hpa' : s.address = address := by simpa using hpa
        refine ⟨l1, l2, hsplit, hl1', hpa', ?_⟩
        have hout : rename_symbol prog address_str new_name =
            { result := { success := true,
                          message := "Renamed to " ++ new_name },
              symbols := applyRename prog.allSymbols address new_name } := by
          simp [rename_symbol, ha, hsr, hf]
        rw [hout, hsplit, applyRename_split l1 l2 s address new_name hl1' hpa']

/-- Witness for C4 at the fixture: `"0x1000"` resolves to 4096, where `mainSym`
and `dupSym` are bound in that order; the rename succeeds, changes only
`mainSym`'s entry (new name, `USER_DEFINED` provenance) and leaves `dupSym`
and the rest untouched. -/
theorem C4_witness :
    (sampleProgram.getAddress "0x1000" = Except.ok 4096 ∧
     getSymbolsAt sampleProgram.allSymbols 4096 = mainSym :: [dupSym] ∧
     sampleProgram.setNameFault mainSym "entry" = none) ∧
    (∃ l1 l2, sampleProgram.allSymbols = l1 ++ mainSym :: l2 ∧
      (∀ x ∈ l1, x.address ≠ 4096) ∧ mainSym.address = 4096 ∧
      rename_symbol sampleProgram "0x1000" "entry" =
        { result := { success := true, message := "Renamed to " ++ "entry" },
          symbols :=
            l1 ++ { mainSym with name := "entry",
                                 source := "USER_DEFINED" } :: l2 }) :=
  ⟨⟨rfl, by decide, rfl⟩,
   (((C4_rename_symbol_spec sampleProgram "0x1000" "entry").2 4096 rfl).2
       mainSym [dupSym] (by decide)).2 rfl⟩

/-! ## C2 — the disassembly walk

The engine invariants used as hypotheses: `getInstructionAt a` returns an
instruction whose own address is `a`, and a decoded instruction occupies at
least one byte. -/

/-- The walk emits at most `n` records. -/
theorem get_disassembly_loop_length (listing : Listing) :
    ∀ n addr, (get_disassembly_loop listing addr n).length ≤ n := by
  intro n
  induction n with
  | zero => intro addr; simp [get_disassembly_loop]
  | succ n ih =>
    intro addr
    cases h : listing.instructionAt addr with
    | none => simp [get_disassembly_loop, h]
    | some instr =>
      simp only [get_disassembly_loop, h, List.length_cons]
      exact Nat.succ_le_succ (ih _)

/-- The first emitted record sits at the start cursor. -/
theorem get_disassembly_loop_head_address (listing : Listing)
    (hwf : ∀ a i, listing.instructionAt a = some i →
      i.address = a ∧ 0 < i.length) :
    ∀ n addr r, (get_disassembly_loop listing addr n).head? = some r →
      r.address = addr := by
  intro n addr r h
  cases n with
  | zero => simp [get_disassembly_loop] at h
  | succ n =>
    cases hi : listing.instructionAt addr with
    | none => simp [get_disassembly_loop, hi] at h
    | some instr =>
      simp only [get_disassembly_loop, hi, List.head?_cons,
        Option.some.injEq] at h
      rw [← h]
      exact (hwf addr instr hi).1

/-- Consecutive emitted records are linked by a decoded instruction: the
earlier record's address decodes to an instruction of positive length, and the
later record sits exactly that length further. -/
theorem get_disassembly_loop_chain (listing : Listing)
    (hwf : ∀ a i, listing.instructionAt a = some i →
      i.address = a ∧ 0 < i.length) :
    ∀ n addr, List.Chain' (fun r1 r2 => ∃ i,
        listing.instructionAt r1.address = some i ∧
        r2.address = r1.address + i.length ∧ 0 < i.length)
      (get_disassembly_loop listing addr n) := by
  intro n
  induction n with
  | zero => intro addr; simp [get_disassembly_loop]
  | succ n ih =>
    intro addr
    cases hi : listing.instructionAt addr with
    | none => simp [get_disassembly_loop, hi]
    | some instr =>
      obtain ⟨hia, hil⟩ := hwf addr instr hi
      simp only [get_disassembly_loop, hi]
      refine List.chain'_cons'.mpr ⟨?_, ih (instr.address + instr.length)⟩
      intro r2 hr2
      have h2 : r2.address = instr.address + instr.length :=
        get_disassembly_loop_head_address listing hwf n _ r2
          (Option.mem_def.mp hr2)
      refine ⟨instr, ?_, ?_, hil⟩
      · show listing.instructionAt
          (mkInstructionRecord listing instr addr).address = some instr
        simpa [mkInstructionRecord, hia] using hi
      · simp [mkInstructionRecord, h2]

/-- A non-empty bound with an empty walk means the very first decode failed. -/
theorem get_disassembly_loop_nil (listing : Listing) (n addr : Nat)
    (hn : 0 < n) (h : get_disassembly_loop listing addr n = []) :
    listing.instructionAt addr = none := by
  cases n with
  | zero => omega
  | succ n =>
    cases hi : listing.instructionAt addr with
    | none => rfl
    | some instr => simp [get_disassembly_loop, hi] at h

/-- A walk shorter than its bound stopped on a decode failure: either it is
empty and the start cursor does not decode, or its last record decodes to an
instruction after which the cursor does not decode. -/
theorem get_disassembly_loop_stop (listing : Listing)
    (hwf : ∀ a i, listing.instructionAt a = some i →
      i.address = a ∧ 0 < i.length) :
    ∀ n addr, (get_disassembly_loop listing addr n).length < n →
      (get_disassembly_loop listing addr n = [] →
        listing.instructionAt addr = none) ∧
      (∀ r, (get_disassembly_loop listing addr n).getLast? = some r →
        ∃ i, listing.instructionAt r.address = some i ∧
          listing.instructionAt (r.address + i.length) = none) := by
  intro n
  induction n with
  | zero => intro addr h; exact absurd h (Nat.not_lt_zero _)
  | succ n ih =>
    intro addr hlen
    cases hi : listing.instructionAt addr with
    | none =>
      refine ⟨fun _ => hi ▸ rfl, ?_⟩
      intro r hr
      simp [get_disassembly_loop, hi] at hr
    | some instr =>
      obtain ⟨hia, hil⟩ := hwf addr instr hi
      have hrest : get_disassembly_loop listing addr (n + 1) =
          mkInstructionRecord listing instr addr ::
            get_disassembly_loop listing (instr.address + instr.length) n := by
        simp [get_disassembly_loop, hi]
      rw [hrest] at hlen
      have hlen' :
          (get_disassembly_loop listing (instr.address + instr.length) n).length
            < n := by
        simpa using hlen
      refine ⟨?_, ?_⟩
      · intro habs
        rw [hrest] at habs
        exact absurd habs (by simp)
      · intro r hr
        rw [hrest] at hr
        cases hr2 :
            get_disassembly_loop listing (instr.address + instr.length) n with
        | nil =>
          have hn : 0 < n := by
            rw [hr2] at hlen'
            simpa using hlen'
          have hnone : listing.instructionAt (instr.address + instr.length)
              = none :=
            get_disassembly_loop_nil listing n _ hn hr2
          rw [hr2] at hr
          simp only [List.getLast?_singleton, Option.some.injEq] at hr
          rw [← hr]
          refine ⟨instr, ?_, ?_⟩
          · simpa [mkInstructionRecord, hia] using hi
          · simpa [mkInstructionRecord, hia] using hnone
        | cons r2 rest2 =>
          have htail := (ih (instr.address + instr.length) hlen').2 r
          rw [hr2] at htail
          apply htail
          rw [hr2] at hr
          simpa [List.getLast?_cons_cons] using hr

/-- C2: for every start address and bound, the walk returns at most that many
records; the first record sits at the start address; each later record's
address strictly exceeds the previous record's, the cursor advancing by
exactly the previous instruction's decoded byte length; and a walk shorter
than the bound stopped exactly on a decode failure at the cursor (the walk is
a total function, so a decode gap terminates it without raising).  Hypotheses:
the engine serves instructions keyed by their own address, with positive
decoded length. -/
theorem C2_get_disassembly_spec (prog : Program)
    (address num_instructions : Nat)
    (hwf : ∀ a i, prog.listing.instructionAt a = some i →
      i.address = a ∧ 0 < i.length) :
    (get_disassembly prog address num_instructions).length ≤ num_instructions ∧
    (∀ r, (get_disassembly prog address num_instructions).head? = some r →
      r.address = address) ∧
    List.Chain' (fun r1 r2 => ∃ i,
        prog.listing.instructionAt r1.address = some i ∧
        r2.address = r1.address + i.length ∧ 0 < i.length)
      (get_disassembly prog address num_instructions) ∧
    List.Chain' (fun r1 r2 => r1.address < r2.address)
      (get_disassembly prog address num_instructions) ∧
    ((get_disassembly prog address num_instructions).length < num_instructions →
      (get_disassembly prog address num_instructions = [] →
        prog.listing.instructionAt address = none) ∧
      (∀ r, (get_disassembly prog address num_instructions).getLast? = some r →
        ∃ i, prog.listing.instructionAt r.address = some i ∧
          prog.listing.instructionAt (r.address + i.length) = none)) := by
  refine ⟨get_disassembly_loop_length prog.listing num_instructions address,
    fun r hr => get_disassembly_loop_head_address prog.listing hwf
      num_instructions address r hr,
    get_disassembly_loop_chain prog.listing hwf num_instructions address,
    ?_,
    get_disassembly_loop_stop prog.listing hwf num_instructions address⟩
  refine List.Chain'.imp ?_
    (get_disassembly_loop_chain prog.listing hwf num_instructions address)
  rintro r1 r2 ⟨i, -, hadd, hpos⟩
  omega

/-- Engine invariant of the fixture listing: instructions are keyed by their
own address and have positive length. -/
theorem sampleProgram_listing_wf :
    ∀ a i, sampleProgram.listing.instructionAt a = some i →
      i.address = a ∧ 0 < i.length := by
  intro a i h
  simp only [sampleProgram, sampleListing] at h
  split_ifs at h with h1 h2
  · cases h
    exact ⟨h1.symm, by norm_num⟩
  · cases h
    exact ⟨h2.symm, by norm_num⟩

/-- Witness for C2 at the fixture (two decodable instructions, then a gap):
the engine invariant holds, and the walk from 4096 with bound 100 satisfies
every conclusion of the specification. -/
theorem C2_witness :
    (∀ a i, sampleProgram.listing.instructionAt a = some i →
      i.address = a ∧ 0 < i.length) ∧
    ((get_disassembly sampleProgram 4096 100).length ≤ 100 ∧
     (∀ r, (get_disassembly sampleProgram 4096 100).head? = some r →
       r.address = 4096) ∧
     List.Chain' (fun r1 r2 => ∃ i,
         sampleProgram.listing.instructionAt r1.address = some i ∧
         r2.address = r1.address + i.length ∧ 0 < i.length)
       (get_disassembly sampleProgram 4096 100) ∧
     List.Chain' (fun r1 r2 => r1.address < r2.address)
       (get_disassembly sampleProgram 4096 100) ∧
     ((get_disassembly sampleProgram 4096 100).length < 100 →
       (get_disassembly sampleProgram 4096 100 = [] →
         sampleProgram.listing.instructionAt 4096 = none) ∧
       (∀ r, (get_disassembly sampleProgram 4096 100).getLast? = some r →
         ∃ i, sampleProgram.listing.instructionAt r.address = some i ∧
           sampleProgram.listing.instructionAt (r.address + i.length)
             = none))) :=
  ⟨sampleProgram_listing_wf,
   C2_get_disassembly_spec sampleProgram 4096 100 sampleProgram_listing_wf⟩

/-! ## C3 — the error envelope of analyze_program (corrected: the handler's
own program-name lookup can refault, and then the exception escapes) -/

/-- Counterexample to C3 as stated: with a program whose name accessor faults
and a decompiler whose `openProgram` call faults, an aggregation step has
raised an exception not handled locally, yet `analyze_program` does not
return an `ErrorReport` — the `except` handler's own `currentProgram.getName()`
call refaults and the exception escapes `analyze_program` itself
(`Except.error`, not an `Except.ok (Report.err ...)`). -/
theorem C3_counterexample :
    faultyDecompiler.openFault = some "DecompInterface: open failed" ∧
    analyze_program (some badNameProgram) faultyDecompiler =
      Except.error "program database is closed" :=
  ⟨rfl, rfl⟩

/-- C3 (amended): when the ambient program handle is unavailable, or when an
aggregation step faults while the program name remains readable,
`analyze_program` aborts the remaining steps (the fault short-circuits the
step sequence) and returns the `ErrorReport` shape with the error flag set,
the exception's message, the diagnostic traceback derived from it, and the
best-effort program name (the sentinel `'unknown'` when the handle is
unavailable); if instead the handler's own program-name lookup faults, that
exception escapes `analyze_program` rather than producing an `ErrorReport`;
and every returned report is either an `AnalysisReport` or such an
`ErrorReport` — never a mixture of the two shapes. -/
theorem C3_analyze_program_error_envelope (currentProgram : Option Program)
    (decompiler : Decompiler) :
    (currentProgram = none →
      analyze_program currentProgram decompiler =
        Except.ok (Report.err
          { error := true, message := noProgramFault,
            traceback := format_exc noProgramFault,
            program_name := "unknown" })) ∧
    (∀ prog e nm, currentProgram = some prog →
      decompiler.openFault = some e → prog.getName = Except.ok nm →
      analyze_program currentProgram decompiler =
        Except.ok (Report.err
          { error := true, message := e, traceback := format_exc e,
            program_name := nm })) ∧
    (∀ prog e2, currentProgram = some prog →
      prog.getName = Except.error e2 →
      analyze_program currentProgram decompiler = Except.error e2) ∧
    (∀ r, analyze_program currentProgram decompiler = Except.ok r →
      (∃ a, r = Report.analysis a) ∨
      (∃ er, r = Report.err er ∧ er.error = true ∧
        er.traceback = format_exc er.message)) := by
  refine ⟨?_, ?_, ?_, ?_⟩
  · intro h
    subst h
    rfl
  · intro prog e nm hcp hof hnm
    subst hcp
    simp [analyze_program, hof, hnm]
  · intro prog e2 hcp hnm
    subst hcp
    cases hof : decompiler.openFault with
    | some e3 => simp [analyze_program, hof, hnm]
    | none => simp [analyze_program, hof, hnm]
  · intro r h
    cases hcp : currentProgram with
    | none =>
      rw [hcp] at h
      have he : analyze_program none decompiler =
          Except.ok (Report.err
            { error := true, message := noProgramFault,
              traceback := format_exc noProgramFault,
              program_name := "unknown" }) := rfl
      rw [he] at h
      cases h
      exact Or.inr ⟨_, rfl, rfl, rfl⟩
    | some prog =>
      rw [hcp] at h
      cases hnm : prog.getName with
      | error e2 =>
        cases hof : decompiler.openFault with
        | some e3 => simp [analyze_program, hof, hnm] at h
        | none => simp [analyze_program, hof, hnm] at h
      | ok nm =>
        cases hof : decompiler.openFault with
        | some e3 =>
          simp only [analyze_program, hof, hnm] at h
          injection h with h2
          exact Or.inr ⟨_, h2.symm, rfl, rfl⟩
        | none =>
          simp only [analyze_program, hof, hnm] at h
          injection h with h2
          exact Or.inl ⟨_, h2.symm⟩

/-- Witness for C3 at the fixture: the decompiler's `openProgram` faults while
the program name is readable, and `analyze_program` returns exactly the
error envelope. -/
theorem C3_witness :
    ((some sampleProgram : Option Program) = some sampleProgram ∧
     faultyDecompiler.openFault = some "DecompInterface: open failed" ∧
     sampleProgram.getName = Except.ok "sample.bin") ∧
    analyze_program (some sampleProgram) faultyDecompiler =
      Except.ok (Report.err
        { error := true, message := "DecompInterface: open failed",
          traceback := format_exc "DecompInterface: open failed",
          program_name := "sample.bin" }) :=
  ⟨⟨rfl, rfl, rfl⟩,
   (C3_analyze_program_error_envelope (some sampleProgram)
       faultyDecompiler).2.1
     sampleProgram "DecompInterface: open failed" "sample.bin" rfl rfl rfl⟩

/-! ## C6 — the marker boundary (corrected: a fault while building the error
envelope escapes) -/

/-- An escaping exception can only come from the error handler's second
`getName()` call: the program handle is present and its name accessor
faults. -/
theorem analyze_program_escape (currentProgram : Option Program)
    (decompiler : Decompiler) (e : String)
    (h : analyze_program currentProgram decompiler = Except.error e) :
    ∃ prog, currentProgram = some prog ∧
      prog.getName = Except.error e := by
  cases hcp : currentProgram with
  | none =>
    rw [hcp] at h
    exact absurd h (by simp [analyze_program])
  | some prog =>
    rw [hcp] at h
    refine ⟨prog, rfl, ?_⟩
    cases hnm : prog.getName with
    | ok nm =>
      cases hof : decompiler.openFault with
      | some e2 => simp [analyze_program, hof, hnm] at h
      | none => simp [analyze_program, hof, hnm] at h
    | error e2 =>
      cases hof : decompiler.openFault with
      | some e3 =>
        simp only [analyze_program, hof, hnm, Except.error.injEq] at h
        rw [h]
      | none =>
        simp only [analyze_program, hof, hnm, Except.error.injEq] at h
        rw [h]

/-- Counterexample to C6 as stated: with a program whose name accessor faults
and a decompiler whose `openProgram` faults, the aggregation fault reaches the
`except` handler, whose own `currentProgram.getName()` call faults — the
exception escapes `analyze_program`, reaches the process's default handler
before the first marker is printed, and no document is emitted between
markers. -/
theorem C6_counterexample :
    main_block (some badNameProgram) faultyDecompiler =
      Except.error "program database is closed" := rfl

/-- C6 (amended): provided the error handler itself cannot fault — the program
handle is absent, or its name accessor succeeds — no exception escapes, and
the process emits exactly one JSON document enclosed by the fixed start and
end marker lines. -/
theorem C6_main_block_markers (currentProgram : Option Program)
    (decompiler : Decompiler)
    (hname : currentProgram = none ∨
      ∃ prog nm, currentProgram = some prog ∧
        prog.getName = Except.ok nm) :
    ∃ r, main_block currentProgram decompiler =
      Except.ok [startMarker, json_dumps r, endMarker] := by
  cases hb : analyze_program currentProgram decompiler with
  | ok r => exact ⟨r, by simp [main_block, hb]⟩
  | error e =>
    obtain ⟨prog, hcp, hnm⟩ := analyze_program_escape _ _ _ hb
    rcases hname with h | ⟨prog2, nm, hcp2, hnm2⟩
    · rw [h] at hcp
      exact absurd hcp (by simp)
    · rw [hcp2] at hcp
      cases hcp
      rw [hnm2] at hnm
      exact Except.noConfusion hnm

/-- Witness for C6 at the healthy fixture: the name accessor succeeds, and the
run emits exactly the marker-delimited document triple. -/
theorem C6_witness :
    ((some sampleProgram : Option Program) = none ∨
      ∃ prog nm, (some sampleProgram : Option Program) = some prog ∧
        prog.getName = Except.ok nm) ∧
    (∃ r, main_block (some sampleProgram) sampleDecompiler =
      Except.ok [startMarker, json_dumps r, endMarker]) :=
  ⟨Or.inr ⟨sampleProgram, "sample.bin", rfl, rfl⟩,
   C6_main_block_markers (some sampleProgram) sampleDecompiler
     (Or.inr ⟨sampleProgram, "sample.bin", rfl, rfl⟩)⟩

end NeoGhidra
